import Mathlib

/-!
Shallow embedding of the vehicle-management HTTP service
(`src/main.rs`, `src/model.rs`): a thin actix-web layer mapping each
route to exactly one parameterized SQL statement against a Postgres
store.  The store is modelled as an explicit state (the two tables, the
id sequence of `vehicles`, and the database server clock); each SQL
statement becomes a pure function on that state; each handler becomes a
total function from the outcome of its single store call
(`Except DbError _`, mirroring sqlx's `Result`) to an HTTP response
together with the list of log messages the handler itself emits.
-/

/-- `model.rs`: `Record { id: i32 }` — the `RETURNING id` row shape. -/
structure Record where
  id : Int
  deriving Repr, DecidableEq

/-- `model.rs`: `VehicleModel { id, name, description }`. -/
structure VehicleModel where
  id : Int
  name : String
  description : String
  deriving Repr, DecidableEq

/-- `model.rs`: `PostVehicle { name, description }` — the POST /vehicles body. -/
structure PostVehicle where
  name : String
  description : String
  deriving Repr, DecidableEq

/-- A row of the `vehicle_odometer` table: `(vehicle_id, odometer, "timestamp")`.
Timestamps (UTC instants) are modelled as integers with the clock order. -/
structure OdometerRow where
  vehicle_id : Int
  odometer : Int
  timestamp : Int
  deriving Repr, DecidableEq

/-- `model.rs`: `OdometerLatestModel { vehicle_id, vehicle_name, odometer, timestamp }`. -/
structure OdometerLatestModel where
  vehicle_id : Int
  vehicle_name : String
  odometer : Int
  timestamp : Int
  deriving Repr, DecidableEq

/-- `model.rs`: `PostOdometer { odometer: i32 }` — the POST body carries only
the odometer value; it has no timestamp field. -/
structure PostOdometer where
  odometer : Int
  deriving Repr, DecidableEq

/-- A store failure as the handler sees it: sqlx's error, carrying the text
that `e.to_string()` yields in `post_odometer`. -/
structure DbError where
  msg : String
  deriving Repr, DecidableEq

/-- The relational store: the two tables, the `vehicles.id` sequence, and the
database server clock (`now() AT TIME ZONE 'UTC'`). -/
structure Store where
  vehicles : List VehicleModel
  vehicle_odometer : List OdometerRow
  nextId : Int
  now : Int
  deriving Repr, DecidableEq

/-- Response bodies, by the serializer each handler uses: plain text, a JSON
Vehicle, the `{rows, vehicles}` object, a bare JSON integer, or a JSON
OdometerLatest. -/
inductive RespBody where
  | text : String → RespBody
  | jsonVehicle : VehicleModel → RespBody
  | jsonRowsVehicles : Nat → List VehicleModel → RespBody
  | jsonInt : Int → RespBody
  | jsonOdometerLatest : OdometerLatestModel → RespBody
  deriving Repr, DecidableEq

/-- An HTTP response: status code and body. -/
structure HttpResponse where
  status : Nat
  body : RespBody
  deriving Repr, DecidableEq

/-- What one handler invocation produces: the HTTP response, and the log
messages the handler itself writes (none of the handlers in `main.rs` log
anything; the `Err` arms discard or only string-match the error). -/
structure HandlerOutput where
  response : HttpResponse
  log : List String
  deriving Repr, DecidableEq

/-- Does the character list `s` start with `pat`? -/
def charsStartWith : List Char → List Char → Bool
  | [], _ => true
  | _ :: _, [] => false
  | p :: ps, c :: cs => p == c && charsStartWith ps cs

/-- Does `pat` occur as a contiguous run inside `s`? -/
def charsContain (pat : List Char) : List Char → Bool
  | [] => charsStartWith pat []
  | c :: cs => charsStartWith pat (c :: cs) || charsContain pat cs

/-- Rust's `String::contains` (substring test), used by `post_odometer` on
`e.to_string()`. -/
def strContains (s pat : String) : Bool :=
  charsContain pat.data s.data

/-! ## Handlers (`main.rs`), as functions of their single store-call result -/

/-- `main.rs` 19–38, `get_vehicles`: `SELECT id, "name", description FROM
public.vehicles` via `fetch_all`; on `Ok` answers 200 with
`{"rows": vehicles.len(), "vehicles": vehicles}`, on `Err(_)` answers 500. -/
def get_vehicles (result : Except DbError (List VehicleModel)) : HandlerOutput :=
  match result with
  | .ok vehicles => ⟨⟨200, .jsonRowsVehicles vehicles.length vehicles⟩, []⟩
  | .error _ => ⟨⟨500, .text "Failed to query vehicles"⟩, []⟩

/-- `main.rs` 40–56, `get_vehicle_by_id`: `SELECT ... WHERE id = $1` via
`fetch_optional`; `Ok(Some)` → 200 JSON vehicle, `Ok(None)` → 404,
`Err(_)` → 500. -/
def get_vehicle_by_id (result : Except DbError (Option VehicleModel)) : HandlerOutput :=
  match result with
  | .ok (some vehicle) => ⟨⟨200, .jsonVehicle vehicle⟩, []⟩
  | .ok none => ⟨⟨404, .text "Vehicle not found"⟩, []⟩
  | .error _ => ⟨⟨500, .text "Failed to query vehicle"⟩, []⟩

/-- `main.rs` 58–81, `post_vehicle`: `INSERT ... RETURNING id` via
`fetch_one`; `Ok(record)` → 200 JSON `record.id`, `Err(_)` → 500. -/
def post_vehicle (result : Except DbError Record) : HandlerOutput :=
  match result with
  | .ok record => ⟨⟨200, .jsonInt record.id⟩, []⟩
  | .error _ => ⟨⟨500, .text "Failed to create vehicle"⟩, []⟩

/-- `main.rs` 83–106, `delete_vehicle_by_id`: `DELETE ... WHERE id=$1
RETURNING id` via `fetch_optional`; `Ok(Some)` → 200, `Ok(None)` → 404,
`Err(_)` → 500. -/
def delete_vehicle_by_id (result : Except DbError (Option Record)) : HandlerOutput :=
  match result with
  | .ok (some _) => ⟨⟨200, .text "Vehicle deleted"⟩, []⟩
  | .ok none => ⟨⟨404, .text "Vehicle not found"⟩, []⟩
  | .error _ => ⟨⟨500, .text "Failed to delete vehicle"⟩, []⟩

/-- `main.rs` 108–134, `get_vehicle_odometer_by_id`: the latest-reading
query via `fetch_optional`; `Ok(Some)` → 200 JSON row, `Ok(None)` → 404,
`Err(_)` → 500. -/
def get_vehicle_odometer_by_id (result : Except DbError (Option OdometerLatestModel)) :
    HandlerOutput :=
  match result with
  | .ok (some odometer_latest) => ⟨⟨200, .jsonOdometerLatest odometer_latest⟩, []⟩
  | .ok none => ⟨⟨404, .text "No odometer record"⟩, []⟩
  | .error _ => ⟨⟨500, .text "Failed to query odometer"⟩, []⟩

/-- `main.rs` 136–167, `post_odometer`: the INSERT via `execute`; `Ok(_)` →
200 confirmation; `Err(e)` → 400 if `e.to_string()` contains
`"foreign key constraint"`, otherwise 500. -/
def post_odometer (result : Except DbError Unit) : HandlerOutput :=
  match result with
  | .ok _ => ⟨⟨200, .text "Odometer updated successfully"⟩, []⟩
  | .error e =>
      if strContains e.msg "foreign key constraint" then
        ⟨⟨400, .text "Invalid vehicle ID"⟩, []⟩
      else
        ⟨⟨500, .text "Internal Server Error"⟩, []⟩

/-! ## SQL statement semantics on the store state -/

/-- `SELECT id, "name", description FROM public.vehicles` (no WHERE):
every row of the table, in store order. -/
def selectAllVehicles (s : Store) : List VehicleModel :=
  s.vehicles

/-- `SELECT ... FROM public.vehicles WHERE id = $1` with `fetch_optional`:
the row with the given primary key, if any. -/
def selectVehicleById (s : Store) (vid : Int) : Option VehicleModel :=
  s.vehicles.find? (fun v => v.id == vid)

/-- `INSERT INTO public.vehicles ("name", description) VALUES($1,$2)
RETURNING id`: the store assigns the next value of the id sequence. -/
def insertVehicle (s : Store) (req : PostVehicle) : Store × Record :=
  ({ s with
      vehicles := s.vehicles ++ [⟨s.nextId, req.name, req.description⟩]
      nextId := s.nextId + 1 },
   ⟨s.nextId⟩)

/-- Modelled from the spec: the store's referential-integrity failure text
when deleting a vehicle still referenced by `vehicle_odometer` rows (§4.1/§6:
the foreign key blocks the delete; the schema lives in the store, not under
`src/`; Postgres phrases it with "violates foreign key constraint"). -/
def fkDeleteViolationMsg : String :=
  "error returned from database: update or delete on table \"vehicles\" violates foreign key constraint \"vehicle_odometer_vehicle_id_fkey\" on table \"vehicle_odometer\""

/-- `DELETE FROM public.vehicles WHERE id=$1 RETURNING id` with
`fetch_optional`: removes the row with that primary key and returns its id,
or returns no row.  Modelled from the spec: if the row exists but odometer
readings still reference it, the store's foreign-key constraint rejects the
delete (§4.1/§6). -/
def deleteVehicleStmt (s : Store) (vid : Int) : Except DbError (Store × Option Record) :=
  match s.vehicles.find? (fun v => v.id == vid) with
  | some v =>
      if s.vehicle_odometer.any (fun o => o.vehicle_id == vid) then
        .error ⟨fkDeleteViolationMsg⟩
      else
        .ok ({ s with vehicles := s.vehicles.filter (fun w => !(w.id == vid)) }, some ⟨v.id⟩)
  | none => .ok (s, none)

/-- Modelled from the spec: the store's referential-integrity failure text for
`vehicle_odometer.vehicle_id` (the schema lives in the store, not under
`src/`; §7 of the spec says handlers string-match a referential-integrity
failure, and Postgres phrases it with "violates foreign key constraint"). -/
def fkViolationMsg : String :=
  "error returned from database: insert or update on table \"vehicle_odometer\" violates foreign key constraint \"vehicle_odometer_vehicle_id_fkey\""

/-- `INSERT INTO public.vehicle_odometer (vehicle_id, odometer, "timestamp")
VALUES($1, $2, (now() AT TIME ZONE 'UTC'))`: the timestamp is the store's
clock, never an input.  Modelled from the spec: the foreign-key constraint on
`vehicle_id` (store-owned schema, §3/§6) rejects the insert when no vehicle
row has that id. -/
def insertOdometerStmt (s : Store) (vid odo : Int) : Except DbError Store :=
  if s.vehicles.any (fun v => v.id == vid) then
    .ok { s with vehicle_odometer := s.vehicle_odometer ++ [⟨vid, odo, s.now⟩] }
  else
    .error ⟨fkViolationMsg⟩

/-- The join/sort/limit of `get_vehicle_odometer_by_id`'s query, row part:
`FROM vehicle_odometer o INNER JOIN vehicles v ON o.vehicle_id = v.id
WHERE o.vehicle_id = $1`, each surviving row shaped as
`(o.vehicle_id, v.name AS vehicle_name, o.odometer, o.timestamp)`. -/
def joinedRows (s : Store) (vid : Int) : List OdometerLatestModel :=
  s.vehicle_odometer.filterMap (fun o =>
    if o.vehicle_id == vid then
      (s.vehicles.find? (fun v => v.id == o.vehicle_id)).map
        (fun v => ⟨o.vehicle_id, v.name, o.odometer, o.timestamp⟩)
    else none)

/-- One step of `ORDER BY o.timestamp DESC LIMIT 1`: keep the row seen so far
with the strictly greatest timestamp (first such row on ties). -/
def stepLatest (acc : Option OdometerLatestModel) (r : OdometerLatestModel) :
    Option OdometerLatestModel :=
  match acc with
  | none => some r
  | some b => if b.timestamp < r.timestamp then some r else some b

/-- `ORDER BY o.timestamp DESC LIMIT 1` with `fetch_optional`: the row with
the maximum timestamp, if any row qualifies. -/
def pickLatest (rows : List OdometerLatestModel) : Option OdometerLatestModel :=
  rows.foldl stepLatest none

/-- The whole SELECT of `get_vehicle_odometer_by_id` on the store state. -/
def latestOdometerQuery (s : Store) (vid : Int) : Option OdometerLatestModel :=
  pickLatest (joinedRows s vid)

/-! ## End-to-end endpoints

Each request performs exactly one store call.  The call either reaches the
store and executes its single statement, or fails in transit (connectivity
loss, etc.); the latter is the `fault` argument.  A failed statement or a
transit fault leaves the store unchanged (single-statement atomicity). -/

/-- GET /vehicles end to end. -/
def getVehiclesEndpoint (s : Store) (fault : Option DbError) : HandlerOutput :=
  match fault with
  | some e => get_vehicles (.error e)
  | none => get_vehicles (.ok (selectAllVehicles s))

/-- GET /vehicles/{id} end to end. -/
def getVehicleByIdEndpoint (s : Store) (vid : Int) (fault : Option DbError) : HandlerOutput :=
  match fault with
  | some e => get_vehicle_by_id (.error e)
  | none => get_vehicle_by_id (.ok (selectVehicleById s vid))

/-- POST /vehicles end to end: response and resulting store. -/
def postVehicleEndpoint (s : Store) (req : PostVehicle) (fault : Option DbError) :
    HandlerOutput × Store :=
  match fault with
  | some e => (post_vehicle (.error e), s)
  | none => (post_vehicle (.ok (insertVehicle s req).2), (insertVehicle s req).1)

/-- DELETE /vehicles/{id} end to end: response and resulting store. -/
def deleteVehicleEndpoint (s : Store) (vid : Int) (fault : Option DbError) :
    HandlerOutput × Store :=
  match fault with
  | some e => (delete_vehicle_by_id (.error e), s)
  | none =>
      match deleteVehicleStmt s vid with
      | .ok (s2, r) => (delete_vehicle_by_id (.ok r), s2)
      | .error e => (delete_vehicle_by_id (.error e), s)

/-- GET /vehicles/{id}/odometer end to end. -/
def getOdometerEndpoint (s : Store) (vid : Int) (fault : Option DbError) : HandlerOutput :=
  match fault with
  | some e => get_vehicle_odometer_by_id (.error e)
  | none => get_vehicle_odometer_by_id (.ok (latestOdometerQuery s vid))

/-- POST /vehicles/{id}/odometer end to end: response and resulting store. -/
def postOdometerEndpoint (s : Store) (vid : Int) (req : PostOdometer) (fault : Option DbError) :
    HandlerOutput × Store :=
  match fault with
  | some e => (post_odometer (.error e), s)
  | none =>
      match insertOdometerStmt s vid req.odometer with
      | .ok s2 => (post_odometer (.ok ()), s2)
      | .error e => (post_odometer (.error e), s)

/-- A concrete store used to instantiate the theorems: one vehicle with one
odometer reading. -/
def sampleStore : Store :=
  { vehicles := [⟨1, "Truck", "A delivery truck"⟩]
    vehicle_odometer := [⟨1, 100, 5⟩]
    nextId := 2
    now := 5 }

/-- A second concrete store: vehicle 1 is referenced by a reading, vehicle 2
has no readings. -/
def sampleStore2 : Store :=
  { vehicles := [⟨1, "Truck", "A delivery truck"⟩, ⟨2, "Van", "A van"⟩]
    vehicle_odometer := [⟨1, 100, 5⟩]
    nextId := 3
    now := 5 }


/-- A sequence of successful POST /vehicles requests, threading the store
through `postVehicleEndpoint`. -/
def createMany (s : Store) (reqs : List PostVehicle) : Store :=
  reqs.foldl (fun t req => (postVehicleEndpoint t req none).2) s

/-! ## Helper lemmas about the ORDER BY DESC LIMIT 1 fold -/

theorem foldl_stepLatest_isSome (l : List OdometerLatestModel) (b : OdometerLatestModel) :
    ∃ r, l.foldl stepLatest (some b) = some r := by
  induction l generalizing b with
  | nil => exact ⟨b, rfl⟩
  | cons x xs ih =>
      simp only [List.foldl_cons, stepLatest]
      split
      · exact ih x
      · exact ih b

theorem foldl_stepLatest_mem (l : List OdometerLatestModel) (acc : Option OdometerLatestModel)
    (r : OdometerLatestModel) (h : l.foldl stepLatest acc = some r) :
    acc = some r ∨ r ∈ l := by
  induction l generalizing acc with
  | nil => exact Or.inl h
  | cons x xs ih =>
      rcases ih (stepLatest acc x) h with hstep | hmem
      · cases acc with
        | none =>
            simp only [stepLatest] at hstep
            rw [Option.some.injEq] at hstep
            exact Or.inr (hstep ▸ List.mem_cons_self x xs)
        | some b =>
            simp only [stepLatest] at hstep
            split at hstep
            · rw [Option.some.injEq] at hstep
              exact Or.inr (hstep ▸ List.mem_cons_self x xs)
            · exact Or.inl hstep
      · exact Or.inr (List.mem_cons_of_mem x hmem)

theorem foldl_stepLatest_le (l : List OdometerLatestModel) (acc : Option OdometerLatestModel)
    (r : OdometerLatestModel) (h : l.foldl stepLatest acc = some r) :
    (∀ b, acc = some b → b.timestamp ≤ r.timestamp) ∧
      ∀ x ∈ l, x.timestamp ≤ r.timestamp := by
  induction l generalizing acc with
  | nil =>
      cases h
      exact ⟨fun b hb => by cases hb; exact le_refl _, fun x hx => absurd hx (List.not_mem_nil x)⟩
  | cons x xs ih =>
      have hrec := ih (stepLatest acc x) h
      have hstep : ∀ y, stepLatest acc x = some y →
          x.timestamp ≤ y.timestamp ∧ ∀ b, acc = some b → b.timestamp ≤ y.timestamp := by
        intro y hy
        cases acc with
        | none =>
            simp only [stepLatest] at hy
            cases hy
            exact ⟨le_refl _, fun b hb => by cases hb⟩
        | some b =>
            simp only [stepLatest] at hy
            split at hy
            · cases hy
              next hlt =>
                exact ⟨le_refl _, fun c hc => by cases hc; exact le_of_lt hlt⟩
            · cases hy
              next hnlt =>
                exact ⟨le_of_not_lt hnlt, fun c hc => by cases hc; exact le_refl _⟩
      have hy : ∃ y, stepLatest acc x = some y := by
        cases acc with
        | none => exact ⟨x, rfl⟩
        | some b =>
            simp only [stepLatest]
            split
            · exact ⟨x, rfl⟩
            · exact ⟨b, rfl⟩
      rcases hy with ⟨y, hy⟩
      have hyr : y.timestamp ≤ r.timestamp := hrec.1 y hy
      refine ⟨fun b hb => le_trans ((hstep y hy).2 b hb) hyr, ?_⟩
      intro z hz
      rcases List.mem_cons.mp hz with rfl | hz
      · exact le_trans (hstep y hy).1 hyr
      · exact hrec.2 z hz

theorem pickLatest_eq_none_iff (l : List OdometerLatestModel) :
    pickLatest l = none ↔ l = [] := by
  constructor
  · intro h
    cases l with
    | nil => rfl
    | cons x xs =>
        rcases foldl_stepLatest_isSome xs x with ⟨r, hr⟩
        simp only [pickLatest, List.foldl_cons, stepLatest] at h
        rw [hr] at h
        cases h
  · intro h
    cases h
    rfl

theorem pickLatest_mem (l : List OdometerLatestModel) (r : OdometerLatestModel)
    (h : pickLatest l = some r) : r ∈ l := by
  rcases foldl_stepLatest_mem l none r h with hacc | hmem
  · cases hacc
  · exact hmem

theorem pickLatest_max (l : List OdometerLatestModel) (r : OdometerLatestModel)
    (h : pickLatest l = some r) : ∀ x ∈ l, x.timestamp ≤ r.timestamp :=
  (foldl_stepLatest_le l none r h).2

theorem pickLatest_of_unique_max (l : List OdometerLatestModel) (x : OdometerLatestModel)
    (hmem : x ∈ l) (hmax : ∀ y ∈ l, y = x ∨ y.timestamp < x.timestamp) :
    pickLatest l = some x := by
  cases hl : pickLatest l with
  | none =>
      rw [pickLatest_eq_none_iff] at hl
      cases hl
      exact absurd hmem (List.not_mem_nil x)
  | some r =>
      rcases hmax r (pickLatest_mem l r hl) with rfl | hlt
      · rfl
      · exact absurd (pickLatest_max l r hl x hmem) (not_le.mpr hlt)

/-! ## Helper lemmas about the join and the statements -/

theorem fkMsg_contains_fk : strContains fkViolationMsg "foreign key constraint" = true := by
  decide

theorem insertOdometerStmt_of_found (s : Store) (vid odo : Int) (v : VehicleModel)
    (hv : s.vehicles.find? (fun w => w.id == vid) = some v) :
    insertOdometerStmt s vid odo =
      .ok { s with vehicle_odometer := s.vehicle_odometer ++ [⟨vid, odo, s.now⟩] } := by
  have hp := List.find?_some (p := fun w : VehicleModel => w.id == vid) hv
  have hany : s.vehicles.any (fun w => w.id == vid) = true :=
    List.any_eq_true.mpr ⟨v, List.mem_of_find?_eq_some hv, hp⟩
  simp [insertOdometerStmt, hany]

theorem insertOdometerStmt_of_absent (s : Store) (vid odo : Int)
    (h : ∀ v ∈ s.vehicles, v.id ≠ vid) :
    insertOdometerStmt s vid odo = .error ⟨fkViolationMsg⟩ := by
  have hany : s.vehicles.any (fun w => w.id == vid) = false := by
    rw [← Bool.not_eq_true, List.any_eq_true]
    rintro ⟨v, hv, hbeq⟩
    exact h v hv (by simpa using hbeq)
  simp [insertOdometerStmt, hany]

theorem mem_joinedRows (s : Store) (vid : Int) (y : OdometerLatestModel)
    (hy : y ∈ joinedRows s vid) :
    ∃ o ∈ s.vehicle_odometer, o.vehicle_id = vid ∧
      ∃ w, s.vehicles.find? (fun u => u.id == vid) = some w ∧
        y = ⟨vid, w.name, o.odometer, o.timestamp⟩ := by
  rcases List.mem_filterMap.mp hy with ⟨o, ho, heq⟩
  by_cases hvid : (o.vehicle_id == vid) = true
  · rw [if_pos hvid] at heq
    rcases Option.map_eq_some'.mp heq with ⟨w, hfind, hw⟩
    cases hw
    have hvid' : o.vehicle_id = vid := by simpa using hvid
    rw [hvid'] at hfind
    exact ⟨o, ho, hvid', w, hfind, by rw [hvid']⟩
  · rw [if_neg hvid] at heq
    cases heq

theorem joinedRows_mem_intro (s : Store) (vid : Int) (o : OdometerRow) (w : VehicleModel)
    (ho : o ∈ s.vehicle_odometer) (hvid : o.vehicle_id = vid)
    (hw : s.vehicles.find? (fun u => u.id == vid) = some w) :
    (⟨vid, w.name, o.odometer, o.timestamp⟩ : OdometerLatestModel) ∈ joinedRows s vid := by
  refine List.mem_filterMap.mpr ⟨o, ho, ?_⟩
  subst hvid
  simp [hw]

/-! ## Claims -/

/-- Claim C1: for POST /vehicles/{id}/odometer, a referential-integrity
failure (the referenced vehicle id does not exist; detected by inspecting the
failure text) yields 400 Bad Request; any other store failure yields a
generic 500; success yields the 200 confirmation message. -/
theorem C1_post_odometer_status_mapping (s : Store) (vid : Int) (req : PostOdometer) :
    ((∀ v ∈ s.vehicles, v.id ≠ vid) →
      (postOdometerEndpoint s vid req none).1 =
        ⟨⟨400, .text "Invalid vehicle ID"⟩, []⟩) ∧
    (∀ e, strContains e.msg "foreign key constraint" = false →
      (postOdometerEndpoint s vid req (some e)).1 =
        ⟨⟨500, .text "Internal Server Error"⟩, []⟩) ∧
    (∀ v, s.vehicles.find? (fun w => w.id == vid) = some v →
      (postOdometerEndpoint s vid req none).1 =
        ⟨⟨200, .text "Odometer updated successfully"⟩, []⟩) := by
  refine ⟨fun h => ?_, fun e he => ?_, fun v hv => ?_⟩
  · have hstmt := insertOdometerStmt_of_absent s vid req.odometer h
    simp [postOdometerEndpoint, hstmt, post_odometer, fkMsg_contains_fk]
  · simp [postOdometerEndpoint, post_odometer, he]
  · have hstmt := insertOdometerStmt_of_found s vid req.odometer v hv
    simp [postOdometerEndpoint, hstmt, post_odometer]

/-- Witness for C1 at the sample store: vehicle 7 does not exist (400), a
connectivity error is not a referential-integrity failure (500), and vehicle
1 exists (200). -/
theorem C1_witness :
    (postOdometerEndpoint sampleStore 7 ⟨42⟩ none).1 =
        ⟨⟨400, .text "Invalid vehicle ID"⟩, []⟩ ∧
    (postOdometerEndpoint sampleStore 1 ⟨42⟩ (some ⟨"connection refused"⟩)).1 =
        ⟨⟨500, .text "Internal Server Error"⟩, []⟩ ∧
    (postOdometerEndpoint sampleStore 1 ⟨42⟩ none).1 =
        ⟨⟨200, .text "Odometer updated successfully"⟩, []⟩ :=
  ⟨(C1_post_odometer_status_mapping sampleStore 7 ⟨42⟩).1 (by decide),
   (C1_post_odometer_status_mapping sampleStore 1 ⟨42⟩).2.1 ⟨"connection refused"⟩ (by decide),
   (C1_post_odometer_status_mapping sampleStore 1 ⟨42⟩).2.2 ⟨1, "Truck", "A delivery truck"⟩
     (by decide)⟩

/-- Claim C3: GET /vehicles/{id} returns 200 with the single Vehicle record
when the row exists, 404 when no row matches, 500 when the store call fails;
and every request lands in exactly one of these three statuses. -/
theorem C3_get_vehicle_by_id_trichotomy (s : Store) (vid : Int) :
    (∀ v, selectVehicleById s vid = some v →
      getVehicleByIdEndpoint s vid none = ⟨⟨200, .jsonVehicle v⟩, []⟩) ∧
    (selectVehicleById s vid = none →
      getVehicleByIdEndpoint s vid none = ⟨⟨404, .text "Vehicle not found"⟩, []⟩) ∧
    (∀ e, getVehicleByIdEndpoint s vid (some e) =
      ⟨⟨500, .text "Failed to query vehicle"⟩, []⟩) ∧
    (∀ fault, (getVehicleByIdEndpoint s vid fault).response.status = 200 ∨
      (getVehicleByIdEndpoint s vid fault).response.status = 404 ∨
      (getVehicleByIdEndpoint s vid fault).response.status = 500) := by
  refine ⟨fun v hv => ?_, fun hnone => ?_, fun e => ?_, fun fault => ?_⟩
  · simp [getVehicleByIdEndpoint, get_vehicle_by_id, hv]
  · simp [getVehicleByIdEndpoint, get_vehicle_by_id, hnone]
  · simp [getVehicleByIdEndpoint, get_vehicle_by_id]
  · cases fault with
    | some e => simp [getVehicleByIdEndpoint, get_vehicle_by_id]
    | none =>
        cases hv : selectVehicleById s vid with
        | none => simp [getVehicleByIdEndpoint, get_vehicle_by_id, hv]
        | some v => simp [getVehicleByIdEndpoint, get_vehicle_by_id, hv]

/-- Witness for C3 at the sample store: vehicle 1 exists, vehicle 9 does not,
and a faulted call answers 500. -/
theorem C3_witness :
    getVehicleByIdEndpoint sampleStore 1 none =
        ⟨⟨200, .jsonVehicle ⟨1, "Truck", "A delivery truck"⟩⟩, []⟩ ∧
    getVehicleByIdEndpoint sampleStore 9 none =
        ⟨⟨404, .text "Vehicle not found"⟩, []⟩ ∧
    getVehicleByIdEndpoint sampleStore 1 (some ⟨"connection refused"⟩) =
        ⟨⟨500, .text "Failed to query vehicle"⟩, []⟩ :=
  ⟨(C3_get_vehicle_by_id_trichotomy sampleStore 1).1 ⟨1, "Truck", "A delivery truck"⟩ (by decide),
   (C3_get_vehicle_by_id_trichotomy sampleStore 9).2.1 (by decide),
   (C3_get_vehicle_by_id_trichotomy sampleStore 1).2.2.1 ⟨"connection refused"⟩⟩

/-- Claim C9: every handler totally matches on its store-call result — for
every possible result, success or any error, it produces an HTTP response
with one of the service's statuses; no result is unhandled. -/
theorem C9_handlers_total_on_store_results :
    (∀ r : Except DbError (List VehicleModel),
      (get_vehicles r).response.status = 200 ∨ (get_vehicles r).response.status = 500) ∧
    (∀ r : Except DbError (Option VehicleModel),
      (get_vehicle_by_id r).response.status = 200 ∨
      (get_vehicle_by_id r).response.status = 404 ∨
      (get_vehicle_by_id r).response.status = 500) ∧
    (∀ r : Except DbError Record,
      (post_vehicle r).response.status = 200 ∨ (post_vehicle r).response.status = 500) ∧
    (∀ r : Except DbError (Option Record),
      (delete_vehicle_by_id r).response.status = 200 ∨
      (delete_vehicle_by_id r).response.status = 404 ∨
      (delete_vehicle_by_id r).response.status = 500) ∧
    (∀ r : Except DbError (Option OdometerLatestModel),
      (get_vehicle_odometer_by_id r).response.status = 200 ∨
      (get_vehicle_odometer_by_id r).response.status = 404 ∨
      (get_vehicle_odometer_by_id r).response.status = 500) ∧
    (∀ r : Except DbError Unit,
      (post_odometer r).response.status = 200 ∨
      (post_odometer r).response.status = 400 ∨
      (post_odometer r).response.status = 500) := by
  refine ⟨fun r => ?_, fun r => ?_, fun r => ?_, fun r => ?_, fun r => ?_, fun r => ?_⟩
  · rcases r with e | a
    · simp [get_vehicles]
    · simp [get_vehicles]
  · rcases r with e | a
    · simp [get_vehicle_by_id]
    · rcases a with _ | v <;> simp [get_vehicle_by_id]
  · rcases r with e | a
    · simp [post_vehicle]
    · simp [post_vehicle]
  · rcases r with e | a
    · simp [delete_vehicle_by_id]
    · rcases a with _ | v <;> simp [delete_vehicle_by_id]
  · rcases r with e | a
    · simp [get_vehicle_odometer_by_id]
    · rcases a with _ | v <;> simp [get_vehicle_odometer_by_id]
  · rcases r with e | a
    · by_cases hfk : strContains e.msg "foreign key constraint" = true
      · simp [post_odometer, hfk]
      · simp [post_odometer, hfk]
    · simp [post_odometer]

/-- Claim C8 as stated is false on the code: on a store failure the handlers
discard the error (`Err(_)`); nothing in any handler writes the real cause to
the log.  Concretely, for a connectivity failure with cause "connection
refused", `get_vehicles` answers the generic 500 but emits no log message at
all, in particular none containing the cause. -/
theorem C8_counterexample :
    (get_vehicles (Except.error ⟨"connection refused"⟩)).response =
        ⟨500, .text "Failed to query vehicles"⟩ ∧
    (get_vehicles (Except.error ⟨"connection refused"⟩)).log = [] ∧
    ¬ ∃ m ∈ (get_vehicles (Except.error ⟨"connection refused"⟩)).log,
        strContains m "connection refused" = true := by
  refine ⟨rfl, rfl, ?_⟩
  rintro ⟨m, hm, -⟩
  simp [get_vehicles] at hm

/-- Claim C8, amended: for every handler and every store failure classified
as StoreFault, the response is a 500 whose body is a fixed generic message
that does not expose (or depend on) the underlying error's cause; the real
cause is discarded by the handler, not logged. -/
theorem C8_storefault_generic_message (e : DbError) :
    get_vehicles (.error e) = ⟨⟨500, .text "Failed to query vehicles"⟩, []⟩ ∧
    get_vehicle_by_id (.error e) = ⟨⟨500, .text "Failed to query vehicle"⟩, []⟩ ∧
    post_vehicle (.error e) = ⟨⟨500, .text "Failed to create vehicle"⟩, []⟩ ∧
    delete_vehicle_by_id (.error e) = ⟨⟨500, .text "Failed to delete vehicle"⟩, []⟩ ∧
    get_vehicle_odometer_by_id (.error e) =
        ⟨⟨500, .text "Failed to query odometer"⟩, []⟩ ∧
    (strContains e.msg "foreign key constraint" = false →
      post_odometer (.error e) = ⟨⟨500, .text "Internal Server Error"⟩, []⟩) := by
  refine ⟨rfl, rfl, rfl, rfl, rfl, fun hfk => ?_⟩
  simp [post_odometer, hfk]

/-- Witness for the amended C8 at the concrete cause "connection refused". -/
theorem C8_witness :
    get_vehicles (.error ⟨"connection refused"⟩) =
        ⟨⟨500, .text "Failed to query vehicles"⟩, []⟩ ∧
    post_odometer (.error ⟨"connection refused"⟩) =
        ⟨⟨500, .text "Internal Server Error"⟩, []⟩ :=
  ⟨(C8_storefault_generic_message ⟨"connection refused"⟩).1,
   (C8_storefault_generic_message ⟨"connection refused"⟩).2.2.2.2.2 (by decide)⟩

/-- Claim C10: for each mutating endpoint (create vehicle, delete vehicle,
post odometer reading), a failed store call produces an error response and
leaves the store unchanged — the single-statement request has no partial
effect. -/
theorem C10_mutations_atomic_on_error (s : Store) (req : PostVehicle) (vid : Int)
    (ro : PostOdometer) :
    (∀ e, (postVehicleEndpoint s req (some e)).2 = s ∧
      (postVehicleEndpoint s req (some e)).1.response.status = 500) ∧
    (∀ e, (deleteVehicleEndpoint s vid (some e)).2 = s ∧
      (deleteVehicleEndpoint s vid (some e)).1.response.status = 500) ∧
    (∀ e, (postOdometerEndpoint s vid ro (some e)).2 = s ∧
      ((postOdometerEndpoint s vid ro (some e)).1.response.status = 400 ∨
       (postOdometerEndpoint s vid ro (some e)).1.response.status = 500)) ∧
    (∀ e, insertOdometerStmt s vid ro.odometer = .error e →
      (postOdometerEndpoint s vid ro none).2 = s ∧
      (postOdometerEndpoint s vid ro none).1.response.status = 400) := by
  refine ⟨fun e => ?_, fun e => ?_, fun e => ?_, fun e he => ?_⟩
  · exact ⟨rfl, rfl⟩
  · exact ⟨rfl, rfl⟩
  · refine ⟨rfl, ?_⟩
    by_cases hfk : strContains e.msg "foreign key constraint" = true
    · exact Or.inl (by simp [postOdometerEndpoint, post_odometer, hfk])
    · exact Or.inr (by simp [postOdometerEndpoint, post_odometer, hfk])
  · have hmsg : e = ⟨fkViolationMsg⟩ := by
      by_cases habs : ∀ v ∈ s.vehicles, v.id ≠ vid
      · have := insertOdometerStmt_of_absent s vid ro.odometer habs
        rw [this] at he
        exact (Except.error.injEq _ _).mp he.symm ▸ rfl
      · exfalso
        push_neg at habs
        rcases habs with ⟨v, hv, hvid⟩
        have hany : s.vehicles.any (fun w => w.id == vid) = true :=
          List.any_eq_true.mpr ⟨v, hv, by simpa using hvid⟩
        rw [insertOdometerStmt, if_pos hany] at he
        cases he
    refine ⟨?_, ?_⟩
    · simp [postOdometerEndpoint, he]
    · cases hmsg
      simp [postOdometerEndpoint, he, post_odometer, fkMsg_contains_fk]

/-- Witness for C10 at the sample store: a faulted create, delete, and
odometer post leave the store unchanged, as does an odometer post for the
missing vehicle 7. -/
theorem C10_witness :
    (postVehicleEndpoint sampleStore ⟨"Van", "A van"⟩ (some ⟨"connection refused"⟩)).2 =
        sampleStore ∧
    (deleteVehicleEndpoint sampleStore 1 (some ⟨"connection refused"⟩)).2 = sampleStore ∧
    (postOdometerEndpoint sampleStore 7 ⟨42⟩ none).2 = sampleStore ∧
    (postOdometerEndpoint sampleStore 7 ⟨42⟩ none).1.response.status = 400 :=
  ⟨((C10_mutations_atomic_on_error sampleStore ⟨"Van", "A van"⟩ 1 ⟨42⟩).1
      ⟨"connection refused"⟩).1,
   ((C10_mutations_atomic_on_error sampleStore ⟨"Van", "A van"⟩ 1 ⟨42⟩).2.1
      ⟨"connection refused"⟩).1,
   ((C10_mutations_atomic_on_error sampleStore ⟨"Van", "A van"⟩ 7 ⟨42⟩).2.2.2
      ⟨fkViolationMsg⟩ rfl).1,
   ((C10_mutations_atomic_on_error sampleStore ⟨"Van", "A van"⟩ 7 ⟨42⟩).2.2.2
      ⟨fkViolationMsg⟩ rfl).2⟩

/-- Claim C4: DELETE /vehicles/{id} answers 200 when a row was removed, 404
when no row matched, and an error response when the store rejects the delete
(a faulted call, or the foreign-key block when readings still reference the
vehicle); an existing id whose vehicle is unreferenced is deleted once with
200, and a second delete of the same id answers 404. -/
theorem C4_delete_vehicle (s : Store) (vid : Int) :
    (∀ s2 r, deleteVehicleStmt s vid = .ok (s2, some r) →
      (deleteVehicleEndpoint s vid none).1 = ⟨⟨200, .text "Vehicle deleted"⟩, []⟩) ∧
    ((∀ v ∈ s.vehicles, v.id ≠ vid) →
      (deleteVehicleEndpoint s vid none).1 = ⟨⟨404, .text "Vehicle not found"⟩, []⟩ ∧
      (deleteVehicleEndpoint s vid none).2 = s) ∧
    (∀ e, (deleteVehicleEndpoint s vid (some e)).1 =
      ⟨⟨500, .text "Failed to delete vehicle"⟩, []⟩) ∧
    ((∃ v ∈ s.vehicles, v.id = vid) → (∃ o ∈ s.vehicle_odometer, o.vehicle_id = vid) →
      (deleteVehicleEndpoint s vid none).1 =
        ⟨⟨500, .text "Failed to delete vehicle"⟩, []⟩ ∧
      (deleteVehicleEndpoint s vid none).2 = s) ∧
    ((∃ v ∈ s.vehicles, v.id = vid) → (∀ o ∈ s.vehicle_odometer, o.vehicle_id ≠ vid) →
      (deleteVehicleEndpoint s vid none).1 = ⟨⟨200, .text "Vehicle deleted"⟩, []⟩ ∧
      (deleteVehicleEndpoint (deleteVehicleEndpoint s vid none).2 vid none).1 =
        ⟨⟨404, .text "Vehicle not found"⟩, []⟩) := by
  refine ⟨fun s2 r h => ?_, fun habs => ?_, fun e => rfl, fun hex href => ?_,
    fun hex hunref => ?_⟩
  · simp [deleteVehicleEndpoint, h, delete_vehicle_by_id]
  · have hnone : s.vehicles.find? (fun w => w.id == vid) = none := by
      rw [List.find?_eq_none]
      intro x hx
      simpa using habs x hx
    have hstmt : deleteVehicleStmt s vid = .ok (s, none) := by
      simp [deleteVehicleStmt, hnone]
    exact ⟨by simp [deleteVehicleEndpoint, hstmt, delete_vehicle_by_id],
      by simp [deleteVehicleEndpoint, hstmt]⟩
  · rcases hex with ⟨v, hv, hvid⟩
    rcases href with ⟨o, ho, hovid⟩
    have hsome : (s.vehicles.find? (fun w => w.id == vid)).isSome :=
      List.find?_isSome.mpr ⟨v, hv, by simpa using hvid⟩
    rcases Option.isSome_iff_exists.mp hsome with ⟨w, hw⟩
    have hany : s.vehicle_odometer.any (fun o => o.vehicle_id == vid) = true :=
      List.any_eq_true.mpr ⟨o, ho, by simpa using hovid⟩
    have hstmt : deleteVehicleStmt s vid = .error ⟨fkDeleteViolationMsg⟩ := by
      simp [deleteVehicleStmt, hw, hany]
    exact ⟨by simp [deleteVehicleEndpoint, hstmt, delete_vehicle_by_id],
      by simp [deleteVehicleEndpoint, hstmt]⟩
  · rcases hex with ⟨v, hv, hvid⟩
    have hsome : (s.vehicles.find? (fun w => w.id == vid)).isSome :=
      List.find?_isSome.mpr ⟨v, hv, by simpa using hvid⟩
    rcases Option.isSome_iff_exists.mp hsome with ⟨w, hw⟩
    have hany : s.vehicle_odometer.any (fun o => o.vehicle_id == vid) = false := by
      rw [← Bool.not_eq_true, List.any_eq_true]
      rintro ⟨o, ho, hbeq⟩
      exact hunref o ho (by simpa using hbeq)
    have hstmt : deleteVehicleStmt s vid =
        .ok ({ s with vehicles := s.vehicles.filter (fun w => !(w.id == vid)) },
          some ⟨w.id⟩) := by
      simp [deleteVehicleStmt, hw, hany]
    refine ⟨by simp [deleteVehicleEndpoint, hstmt, delete_vehicle_by_id], ?_⟩
    have h2 : (deleteVehicleEndpoint s vid none).2 =
        { s with vehicles := s.vehicles.filter (fun w => !(w.id == vid)) } := by
      simp [deleteVehicleEndpoint, hstmt]
    rw [h2]
    have hnone : (s.vehicles.filter (fun w => !(w.id == vid))).find?
        (fun w => w.id == vid) = none := by
      rw [List.find?_eq_none]
      intro x hx
      have hxmem := (List.mem_filter.mp hx).2
      simp at hxmem
      simp [hxmem]
    have hstmt2 : deleteVehicleStmt
        { s with vehicles := s.vehicles.filter (fun w => !(w.id == vid)) } vid =
        .ok ({ s with vehicles := s.vehicles.filter (fun w => !(w.id == vid)) }, none) := by
      simp [deleteVehicleStmt, hnone]
    simp [deleteVehicleEndpoint, hstmt2, delete_vehicle_by_id]

/-- Witness for C4 at the second sample store: deleting vehicle 1 (still
referenced by a reading) is rejected by the store and answers 500 leaving the
store unchanged; deleting the unreferenced vehicle 2 answers 200 once and 404
the second time; a never-existing id answers 404; a faulted delete answers
500. -/
theorem C4_witness :
    (deleteVehicleEndpoint sampleStore2 1 none).1 =
      ⟨⟨500, .text "Failed to delete vehicle"⟩, []⟩ ∧
    (deleteVehicleEndpoint sampleStore2 1 none).2 = sampleStore2 ∧
    (deleteVehicleEndpoint sampleStore2 2 none).1 = ⟨⟨200, .text "Vehicle deleted"⟩, []⟩ ∧
    (deleteVehicleEndpoint (deleteVehicleEndpoint sampleStore2 2 none).2 2 none).1 =
      ⟨⟨404, .text "Vehicle not found"⟩, []⟩ ∧
    (deleteVehicleEndpoint sampleStore2 9 none).1 = ⟨⟨404, .text "Vehicle not found"⟩, []⟩ ∧
    (deleteVehicleEndpoint sampleStore2 1 (some ⟨"connection refused"⟩)).1 =
      ⟨⟨500, .text "Failed to delete vehicle"⟩, []⟩ :=
  ⟨((C4_delete_vehicle sampleStore2 1).2.2.2.1 ⟨⟨1, "Truck", "A delivery truck"⟩, by decide, rfl⟩
      ⟨⟨1, 100, 5⟩, by decide, rfl⟩).1,
   ((C4_delete_vehicle sampleStore2 1).2.2.2.1 ⟨⟨1, "Truck", "A delivery truck"⟩, by decide, rfl⟩
      ⟨⟨1, 100, 5⟩, by decide, rfl⟩).2,
   (C4_delete_vehicle sampleStore2 2).1
     ⟨[⟨1, "Truck", "A delivery truck"⟩], [⟨1, 100, 5⟩], 3, 5⟩ ⟨2⟩ rfl,
   ((C4_delete_vehicle sampleStore2 2).2.2.2.2 ⟨⟨2, "Van", "A van"⟩, by decide, rfl⟩
      (by decide)).2,
   ((C4_delete_vehicle sampleStore2 9).2.1 (by decide)).1,
   (C4_delete_vehicle sampleStore2 1).2.2.1 ⟨"connection refused"⟩⟩

/-- Claim C5: POST /vehicles answers 200 with the newly assigned positive
integer id; a subsequent GET /vehicles/{id} with that id answers the Vehicle
with matching name, description and id; any store failure answers 500. -/
theorem C5_create_then_get (s : Store) (req : PostVehicle)
    (hpos : 0 < s.nextId) (hfresh : ∀ v ∈ s.vehicles, v.id < s.nextId) :
    ((postVehicleEndpoint s req none).1 = ⟨⟨200, .jsonInt s.nextId⟩, []⟩ ∧ 0 < s.nextId) ∧
    getVehicleByIdEndpoint (postVehicleEndpoint s req none).2 s.nextId none =
      ⟨⟨200, .jsonVehicle ⟨s.nextId, req.name, req.description⟩⟩, []⟩ ∧
    (∀ e, (postVehicleEndpoint s req (some e)).1 =
      ⟨⟨500, .text "Failed to create vehicle"⟩, []⟩) := by
  refine ⟨⟨rfl, hpos⟩, ?_, fun e => rfl⟩
  have hnone : s.vehicles.find? (fun w => w.id == s.nextId) = none := by
    rw [List.find?_eq_none]
    intro x hx
    simp
    exact ne_of_lt (hfresh x hx)
  have hsel : selectVehicleById (postVehicleEndpoint s req none).2 s.nextId =
      some ⟨s.nextId, req.name, req.description⟩ := by
    simp [selectVehicleById, postVehicleEndpoint, insertVehicle, List.find?_append, hnone]
  simp [getVehicleByIdEndpoint, get_vehicle_by_id, hsel]

/-- Witness for C5 at the sample store (next id 2, the one existing id is 1). -/
theorem C5_witness :
    (postVehicleEndpoint sampleStore ⟨"Van", "A van"⟩ none).1 = ⟨⟨200, .jsonInt 2⟩, []⟩ ∧
    getVehicleByIdEndpoint (postVehicleEndpoint sampleStore ⟨"Van", "A van"⟩ none).2 2 none =
      ⟨⟨200, .jsonVehicle ⟨2, "Van", "A van"⟩⟩, []⟩ :=
  ⟨((C5_create_then_get sampleStore ⟨"Van", "A van"⟩ (by decide) (by decide)).1).1,
   (C5_create_then_get sampleStore ⟨"Van", "A van"⟩ (by decide) (by decide)).2.1⟩

theorem createMany_cons (s : Store) (r : PostVehicle) (rs : List PostVehicle) :
    createMany s (r :: rs) = createMany ((postVehicleEndpoint s r none).2) rs := rfl

theorem createMany_vehicles_length (reqs : List PostVehicle) (s : Store) :
    (createMany s reqs).vehicles.length = s.vehicles.length + reqs.length := by
  induction reqs generalizing s with
  | nil => rfl
  | cons r rs ih =>
      rw [createMany_cons, ih]
      have hlen : ((postVehicleEndpoint s r none).2).vehicles.length =
          s.vehicles.length + 1 := by
        simp [postVehicleEndpoint, insertVehicle]
      rw [hlen]
      simp [List.length_cons]
      omega

theorem createMany_mem_mono (reqs : List PostVehicle) (s : Store) (v : VehicleModel)
    (hv : v ∈ s.vehicles) : v ∈ (createMany s reqs).vehicles := by
  induction reqs generalizing s with
  | nil => exact hv
  | cons r rs ih =>
      rw [createMany_cons]
      apply ih
      show v ∈ s.vehicles ++ [⟨s.nextId, r.name, r.description⟩]
      exact List.mem_append_left _ hv

theorem createMany_includes (reqs : List PostVehicle) (s : Store) :
    ∀ req ∈ reqs, ∃ v ∈ (createMany s reqs).vehicles,
      v.name = req.name ∧ v.description = req.description := by
  induction reqs generalizing s with
  | nil => intro req h; exact absurd h (List.not_mem_nil req)
  | cons r rs ih =>
      intro req hreq
      rcases List.mem_cons.mp hreq with rfl | hreq
      · refine ⟨⟨s.nextId, req.name, req.description⟩, ?_, rfl, rfl⟩
        rw [createMany_cons]
        apply createMany_mem_mono
        show _ ∈ s.vehicles ++ [(⟨s.nextId, req.name, req.description⟩ : VehicleModel)]
        exact List.mem_append_right _ (List.mem_singleton.mpr rfl)
      · rw [createMany_cons]
        exact ih _ req hreq

/-- Claim C6: GET /vehicles answers 200 with all vehicles in the store under
`vehicles` and a `rows` field equal to the length of that sequence; it
answers 500 only when the store call fails; after creating N vehicles the
count is at least N and every created vehicle is included. -/
theorem C6_list_vehicles (s : Store) (reqs : List PostVehicle) :
    getVehiclesEndpoint s none =
      ⟨⟨200, .jsonRowsVehicles (selectAllVehicles s).length (selectAllVehicles s)⟩, []⟩ ∧
    (∀ e, getVehiclesEndpoint s (some e) = ⟨⟨500, .text "Failed to query vehicles"⟩, []⟩) ∧
    (∀ v ∈ s.vehicles, v ∈ selectAllVehicles s) ∧
    (selectAllVehicles (createMany s reqs)).length = s.vehicles.length + reqs.length ∧
    reqs.length ≤ (selectAllVehicles (createMany s reqs)).length ∧
    (∀ req ∈ reqs, ∃ v ∈ selectAllVehicles (createMany s reqs),
      v.name = req.name ∧ v.description = req.description) := by
  refine ⟨rfl, fun e => rfl, fun v hv => hv, ?_, ?_, ?_⟩
  · exact createMany_vehicles_length reqs s
  · rw [show selectAllVehicles (createMany s reqs) = (createMany s reqs).vehicles from rfl,
      createMany_vehicles_length reqs s]
    omega
  · exact createMany_includes reqs s

/-- Witness for C6 at the sample store with two creations: the count grows
from 1 to 3 and both created vehicles are included. -/
theorem C6_witness :
    (selectAllVehicles (createMany sampleStore [⟨"Van", "A van"⟩, ⟨"Bus", "A bus"⟩])).length =
      3 ∧
    (∃ v ∈ selectAllVehicles (createMany sampleStore [⟨"Van", "A van"⟩, ⟨"Bus", "A bus"⟩]),
      v.name = "Bus" ∧ v.description = "A bus") := by
  have h := C6_list_vehicles sampleStore [⟨"Van", "A van"⟩, ⟨"Bus", "A bus"⟩]
  exact ⟨h.2.2.2.1, h.2.2.2.2.2 ⟨"Bus", "A bus"⟩ (by decide)⟩

/-- Claim C7: a posted odometer reading's timestamp is assigned by the server
as the store clock's current UTC instant at the moment of the write; the
request body consists of the odometer value alone, and the stored timestamp
is the same whatever body is sent — no client input influences it. -/
theorem C7_timestamp_server_assigned (s : Store) (vid : Int) (r1 r2 : PostOdometer) :
    (∀ a b : PostOdometer, a.odometer = b.odometer → a = b) ∧
    (∀ s2, insertOdometerStmt s vid r1.odometer = .ok s2 →
      s2.vehicle_odometer = s.vehicle_odometer ++ [⟨vid, r1.odometer, s.now⟩]) ∧
    (∀ s2 s3, insertOdometerStmt s vid r1.odometer = .ok s2 →
      insertOdometerStmt s vid r2.odometer = .ok s3 →
      ∃ t, t = s.now ∧
        s2.vehicle_odometer = s.vehicle_odometer ++ [⟨vid, r1.odometer, t⟩] ∧
        s3.vehicle_odometer = s.vehicle_odometer ++ [⟨vid, r2.odometer, t⟩]) := by
  have hok : ∀ (odo : Int) (s2 : Store), insertOdometerStmt s vid odo = .ok s2 →
      s2.vehicle_odometer = s.vehicle_odometer ++ [⟨vid, odo, s.now⟩] := by
    intro odo s2 h
    rw [insertOdometerStmt] at h
    split at h
    · cases h; rfl
    · cases h
  refine ⟨fun a b hab => ?_, fun s2 h => hok r1.odometer s2 h, fun s2 s3 h2 h3 => ?_⟩
  · cases a; cases b; cases hab; rfl
  · exact ⟨s.now, rfl, hok r1.odometer s2 h2, hok r2.odometer s3 h3⟩

/-- Witness for C7 at the sample store: posting for vehicle 1 stores the
clock value 5 as the timestamp, for either of two different bodies. -/
theorem C7_witness :
    ∃ t, t = sampleStore.now ∧
      ({ sampleStore with
          vehicle_odometer :=
            sampleStore.vehicle_odometer ++ [(⟨1, 42, 5⟩ : OdometerRow)] }).vehicle_odometer =
        sampleStore.vehicle_odometer ++ [(⟨1, 42, t⟩ : OdometerRow)] ∧
      ({ sampleStore with
          vehicle_odometer :=
            sampleStore.vehicle_odometer ++ [(⟨1, 43, 5⟩ : OdometerRow)] }).vehicle_odometer =
        sampleStore.vehicle_odometer ++ [(⟨1, 43, t⟩ : OdometerRow)] :=
  (C7_timestamp_server_assigned sampleStore 1 ⟨42⟩ ⟨43⟩).2.2 _ _ rfl rfl

/-- Claim C2: GET /vehicles/{id}/odometer returns, among the stored readings
for that vehicle, the one with the maximum timestamp joined with the
vehicle's name; 404 when the vehicle has no readings; 500 when the store
call fails.  After posting two readings in sequence for the same vehicle
(the clock having advanced between them), fetching latest returns the one
with the later timestamp. -/
theorem C2_latest_odometer (s : Store) (vid : Int) :
    (∀ r, latestOdometerQuery s vid = some r →
      r ∈ joinedRows s vid ∧ ∀ x ∈ joinedRows s vid, x.timestamp ≤ r.timestamp) ∧
    (∀ r, latestOdometerQuery s vid = some r →
      getOdometerEndpoint s vid none = ⟨⟨200, .jsonOdometerLatest r⟩, []⟩) ∧
    ((∀ o ∈ s.vehicle_odometer, o.vehicle_id ≠ vid) →
      getOdometerEndpoint s vid none = ⟨⟨404, .text "No odometer record"⟩, []⟩) ∧
    (∀ e, getOdometerEndpoint s vid (some e) =
      ⟨⟨500, .text "Failed to query odometer"⟩, []⟩) ∧
    (∀ v o1 o2 t2, s.vehicles.find? (fun w => w.id == vid) = some v →
      (∀ o ∈ s.vehicle_odometer, o.timestamp ≤ s.now) → s.now < t2 →
      getOdometerEndpoint
        (postOdometerEndpoint
          { (postOdometerEndpoint s vid ⟨o1⟩ none).2 with now := t2 } vid ⟨o2⟩ none).2
        vid none =
      ⟨⟨200, .jsonOdometerLatest ⟨vid, v.name, o2, t2⟩⟩, []⟩) := by
  refine ⟨fun r hr => ?_, fun r hr => ?_, fun habs => ?_, fun e => rfl, ?_⟩
  · exact ⟨pickLatest_mem _ r hr, pickLatest_max _ r hr⟩
  · simp [getOdometerEndpoint, get_vehicle_odometer_by_id, hr]
  · have hempty : joinedRows s vid = [] := by
      simp only [joinedRows]
      rw [List.filterMap_eq_nil_iff]
      intro o ho
      rw [if_neg]
      simp
      exact habs o ho
    have hq : latestOdometerQuery s vid = none := by
      rw [latestOdometerQuery, hempty]
      rfl
    simp [getOdometerEndpoint, get_vehicle_odometer_by_id, hq]
  · intro v o1 o2 t2 hv hts hlt
    have h1 : (postOdometerEndpoint s vid ⟨o1⟩ none).2 =
        { s with vehicle_odometer := s.vehicle_odometer ++ [⟨vid, o1, s.now⟩] } := by
      simp [postOdometerEndpoint, insertOdometerStmt_of_found s vid o1 v hv]
    rw [h1]
    have hv2 : ({ s with
        vehicle_odometer := s.vehicle_odometer ++ [⟨vid, o1, s.now⟩],
        now := t2 } : Store).vehicles.find? (fun w => w.id == vid) = some v := hv
    have h2 : (postOdometerEndpoint { s with
          vehicle_odometer := s.vehicle_odometer ++ [⟨vid, o1, s.now⟩],
          now := t2 } vid ⟨o2⟩ none).2 =
        { s with
          vehicle_odometer :=
            s.vehicle_odometer ++ [⟨vid, o1, s.now⟩, ⟨vid, o2, t2⟩],
          now := t2 } := by
      simp [postOdometerEndpoint, insertOdometerStmt_of_found _ vid o2 v hv2]
    rw [h2]
    have hq : latestOdometerQuery { s with
        vehicle_odometer :=
          s.vehicle_odometer ++ [⟨vid, o1, s.now⟩, ⟨vid, o2, t2⟩],
        now := t2 } vid = some ⟨vid, v.name, o2, t2⟩ := by
      apply pickLatest_of_unique_max
      · apply joinedRows_mem_intro _ vid ⟨vid, o2, t2⟩ v
        · show (⟨vid, o2, t2⟩ : OdometerRow) ∈
            s.vehicle_odometer ++ [⟨vid, o1, s.now⟩, ⟨vid, o2, t2⟩]
          exact List.mem_append_right _ (by simp)
        · rfl
        · exact hv
      · intro y hy
        rcases mem_joinedRows _ vid y hy with ⟨o, ho, hvid, w, hfind, hyeq⟩
        have hw : w = v := Option.some.inj (hfind.symm.trans hv)
        subst hw
        have homem : o ∈ s.vehicle_odometer ++ [⟨vid, o1, s.now⟩, ⟨vid, o2, t2⟩] := ho
        rcases List.mem_append.mp homem with hbase | h12
        · right
          rw [hyeq]
          exact lt_of_le_of_lt (hts o hbase) hlt
        · rcases List.mem_cons.mp h12 with h1m | h2m
          · right
            rw [hyeq, h1m]
            exact hlt
          · left
            have h2m' : o = ⟨vid, o2, t2⟩ := by simpa using h2m
            rw [hyeq, h2m']
    simp [getOdometerEndpoint, get_vehicle_odometer_by_id, hq]

/-- Witness for C2 at the sample store (vehicle 1, one reading at clock 5):
the stored maximum is returned; vehicle 2 has no readings (404); a faulted
call answers 500; and after two further posts with the clock advanced to 9,
the second post's reading is returned. -/
theorem C2_witness :
    getOdometerEndpoint sampleStore 1 none =
      ⟨⟨200, .jsonOdometerLatest ⟨1, "Truck", 100, 5⟩⟩, []⟩ ∧
    getOdometerEndpoint sampleStore 2 none = ⟨⟨404, .text "No odometer record"⟩, []⟩ ∧
    getOdometerEndpoint sampleStore 1 (some ⟨"connection refused"⟩) =
      ⟨⟨500, .text "Failed to query odometer"⟩, []⟩ ∧
    getOdometerEndpoint
      (postOdometerEndpoint
        { (postOdometerEndpoint sampleStore 1 ⟨200⟩ none).2 with now := 9 } 1 ⟨300⟩ none).2
      1 none =
      ⟨⟨200, .jsonOdometerLatest ⟨1, "Truck", 300, 9⟩⟩, []⟩ :=
  ⟨(C2_latest_odometer sampleStore 1).2.1 ⟨1, "Truck", 100, 5⟩ rfl,
   (C2_latest_odometer sampleStore 2).2.2.1 (by decide),
   (C2_latest_odometer sampleStore 1).2.2.2.1 ⟨"connection refused"⟩,
   (C2_latest_odometer sampleStore 1).2.2.2.2 ⟨1, "Truck", "A delivery truck"⟩ 200 300 9
     rfl (by decide) (by decide)⟩
